import Mathlib

/-!
terraform-provider-azurerm: Azure CLI token authentication and resource adapters.

A shallow embedding of

* `vendor/github.com/hashicorp/go-azure-helpers/authentication/auth_method_azure_cli_token.go`
  (`build`, `isApplicable`, `populateConfig`, `validate`, `obtainAuthorizationToken`),
* `azurerm/resource_arm_spring_cloud.go` (`resourceArmSpringCloudRead`,
  `resourceArmSpringCloudDelete`),
* `azurerm/internal/services/keyvault/key_vault_secret_data_source.go`
  (`dataSourceArmKeyVaultSecretRead`),

followed by the theorems about them.

Conventions of the embedding:

* a Go `error` value is represented by its text (`String`), an `error` result by
  `Option String` (`none` is `nil`), a `(T, error)` result that is one or the other by
  `Except String T`;
* a Go pointer is an `Option`; dereferencing `none` is the run-time panic
  `Panic.nilPointerDereference`, and a function that can panic returns `Except Panic _`;
* every call that leaves the file (the Azure CLI, the remote API, helpers of other packages)
  is a field of an environment structure, a pure function of its arguments;
* a pointer receiver or `*T` argument that the callee mutates is passed in and returned.
-/

set_option autoImplicit false
set_option linter.dupNamespace false

/-- The run-time panics the embedded code can reach. -/
inductive Panic where
  | nilPointerDereference
  deriving DecidableEq, Repr

namespace multierror

/-- The `*multierror.Error` of `github.com/hashicorp/go-multierror`: the list `Errors`. -/
structure Error where
  Errors : List String
  deriving DecidableEq, Repr

/-- `multierror.Append(err, e)` for a `*multierror.Error` first argument (possibly the typed
nil pointer) and one non-nil plain error `e`: a nil `err` is initialised to the empty report,
then `e` is appended to `Errors`. -/
def Append (err : Option Error) (e : String) : Option Error :=
  match err with
  | none => some { Errors := [e] }
  | some r => some { Errors := r.Errors ++ [e] }

end multierror

/-- The dynamic value of the `error` that `validate` returns: a plain `fmt.Errorf` error or a
`*multierror.Error`. -/
inductive GoError where
  | plain (text : String)
  | multi (report : multierror.Error)
  deriving DecidableEq, Repr

namespace multierror

/-- `(*Error).ErrorOrNil`: `nil` for a nil receiver or an empty `Errors`, the receiver
otherwise. -/
def ErrorOrNil (e : Option Error) : Option GoError :=
  match e with
  | none => none
  | some r => if r.Errors.length = 0 then none else some (GoError.multi r)

end multierror

namespace authentication

/-- The `azureCLIProfile` of the package, with the fields the file reads and writes; `P` is
the type `cli.Profile` of `github.com/Azure/go-autorest/autorest/azure/cli`. -/
structure azureCLIProfile (P : Type) where
  profile : P
  clientId : String
  environment : String
  subscriptionId : String
  tenantId : String
  deriving DecidableEq, Repr

/-- The `azureCliTokenAuth` struct; `profile` is a pointer. -/
structure azureCliTokenAuth (P : Type) where
  profile : Option (azureCLIProfile P)
  servicePrincipalAuthDocsLink : String
  deriving DecidableEq, Repr

/-- `fmt.Errorf(errorMessageFmt, field)` of `validate`: the format has the single verb `%s`. -/
def errorMessageFmt (field : String) : String :=
  "A " ++ field ++ " was not found in your Azure CLI Credentials.\n\nPlease login to the Azure CLI again via `az login`"

/-- `azureCliTokenAuth.validate`. -/
def validate {P : Type} (a : azureCliTokenAuth P) : Option GoError :=
  let err : Option multierror.Error := none
  match a.profile with
  | none =>
    some (GoError.plain "Azure CLI Profile is nil - this is an internal error and should be reported.")
  | some profile =>
    let err := if profile.clientId = "" then
      multierror.Append err (errorMessageFmt "Client ID") else err
    let err := if profile.subscriptionId = "" then
      multierror.Append err (errorMessageFmt "Subscription ID") else err
    let err := if profile.tenantId = "" then
      multierror.Append err (errorMessageFmt "Tenant ID") else err
    multierror.ErrorOrNil err

/-- Modelled from the spec: the declaration of `Builder` (builder.go of the package) is not
among the sources. `ClientID`, `SubscriptionID`, `TenantID`, `Environment`,
`SupportsAzureCliToken` and `ClientSecretDocsLink` are the fields the file reads; the spec
describes the builder as carrying the identity fields, per-method enable flags and
documentation links, and names a client secret and a client certificate as the explicit
credentials of the other strategies: `ClientSecret`, `ClientCertPath`. -/
structure Builder where
  ClientID : String
  SubscriptionID : String
  TenantID : String
  Environment : String
  SupportsAzureCliToken : Bool
  ClientCertPath : String
  ClientSecret : String
  ClientSecretDocsLink : String
  deriving DecidableEq, Repr

/-- Modelled from the spec: the declaration of `Config` (config.go of the package) is not
among the sources. `ClientID`, `Environment`, `SubscriptionID` and `TenantID` are the fields
`populateConfig` assigns, `ObjectID` is the object ID field the spec speaks of, and `rest`
stands for every further field of the struct. -/
structure Config (R : Type) where
  ClientID : String
  SubscriptionID : String
  TenantID : String
  Environment : String
  ObjectID : String
  rest : R
  deriving DecidableEq, Repr

/-- The calls `build` makes outside the file, in the order it makes them. -/
inductive Call where
  | ProfilePath
  | LoadProfile (path : String)
  | verifyAuthenticatedAsAUser
  | populateFields
  | populateClientId
  deriving DecidableEq, Repr

/-- What `build` calls outside the file: `cli.ProfilePath` and `cli.LoadProfile` of go-autorest
and the three methods of `*azureCLIProfile` (azure_cli_profile.go, not among the sources).
The two `populate` methods have a pointer receiver: they return the profile as they leave it
together with their `error`. -/
structure AzureCLI (P : Type) where
  ProfilePath : Except String String
  LoadProfile : String → Except String P
  verifyAuthenticatedAsAUser : azureCLIProfile P → Bool
  populateFields : azureCLIProfile P → azureCLIProfile P × Option String
  populateClientId : azureCLIProfile P → azureCLIProfile P × Option String

/-- The text of the error `build` returns for a service-principal login (the raw string of
the source with `%s` replaced by the docs link). -/
def servicePrincipalLoginError (servicePrincipalAuthDocsLink : String) : String :=
  "Authenticating using the Azure CLI is only supported as a User (not a Service Principal).\n\nTo authenticate to Azure using a Service Principal, you can use the separate 'Authenticate using a Service Principal'\nauth method - instructions for which can be found here: "
    ++ servicePrincipalAuthDocsLink
    ++ "\n\nAlternatively you can authenticate using the Azure CLI by using a User Account."

/-- `azureCliTokenAuth.build`: the external calls made, in order, and the `(authMethod, error)`
result. `cli.Profile`'s zero value is `default`. An error formatted with `%+v` or `%s` is
rendered as its text. -/
def build {P : Type} [Inhabited P] (cli : AzureCLI P) (_a : azureCliTokenAuth P) (b : Builder) :
    List Call × Except String (azureCliTokenAuth P) :=
  let profile0 : azureCLIProfile P :=
    { profile := default
      clientId := b.ClientID
      environment := b.Environment
      subscriptionId := b.SubscriptionID
      tenantId := b.TenantID }
  let servicePrincipalAuthDocsLink := b.ClientSecretDocsLink
  match cli.ProfilePath with
  | .error err =>
    ([.ProfilePath], .error ("Error loading the Profile Path from the Azure CLI: " ++ err))
  | .ok profilePath =>
    match cli.LoadProfile profilePath with
    | .error _ =>
      ([.ProfilePath, .LoadProfile profilePath],
        .error "Azure CLI Authorization Profile was not found. Please ensure the Azure CLI is installed and then log-in with `az login`.")
    | .ok profile =>
      let profile1 := { profile0 with profile := profile }
      if !cli.verifyAuthenticatedAsAUser profile1 then
        ([.ProfilePath, .LoadProfile profilePath, .verifyAuthenticatedAsAUser],
          .error (servicePrincipalLoginError servicePrincipalAuthDocsLink))
      else
        match cli.populateFields profile1 with
        | (_, some err) =>
          ([.ProfilePath, .LoadProfile profilePath, .verifyAuthenticatedAsAUser, .populateFields],
            .error ("Error retrieving the Profile from the Azure CLI: " ++ err
              ++ " Please re-authenticate using `az login`."))
        | (profile2, none) =>
          match cli.populateClientId profile2 with
          | (_, some err) =>
            ([.ProfilePath, .LoadProfile profilePath, .verifyAuthenticatedAsAUser,
                .populateFields, .populateClientId],
              .error ("Error populating Client ID from the Azure CLI: " ++ err))
          | (profile3, none) =>
            ([.ProfilePath, .LoadProfile profilePath, .verifyAuthenticatedAsAUser,
                .populateFields, .populateClientId],
              .ok { profile := some profile3
                    servicePrincipalAuthDocsLink := servicePrincipalAuthDocsLink })

/-- `azureCliTokenAuth.isApplicable`. -/
def isApplicable {P : Type} (_a : azureCliTokenAuth P) (b : Builder) : Bool :=
  b.SupportsAzureCliToken

/-- The applicability predicate in the words of the spec: the supports-CLI-token flag is set
and no conflicting explicit credentials (client secret, client certificate) are supplied. -/
def isApplicable_spec (b : Builder) : Bool :=
  b.SupportsAzureCliToken && (b.ClientSecret == "" && b.ClientCertPath == "")

/-- `azureCliTokenAuth.name`. -/
def name {P : Type} (_a : azureCliTokenAuth P) : String :=
  "Obtaining a token from the Azure CLI"

/-- `azureCliTokenAuth.populateConfig`: the configuration as the call leaves it and the
`error` returned; reading a field through a nil `a.profile` panics. -/
def populateConfig {P R : Type} (a : azureCliTokenAuth P) (c : Config R) :
    Except Panic (Config R × Option String) :=
  match a.profile with
  | none => .error Panic.nilPointerDereference
  | some profile =>
    let c := { c with ClientID := profile.clientId }
    let c := { c with Environment := profile.environment }
    let c := { c with SubscriptionID := profile.subscriptionId }
    let c := { c with TenantID := profile.tenantId }
    .ok (c, none)

end authentication

namespace unicode

/-- `unicode.IsSpace` of the Go standard library: the Latin-1 spaces and the code points with
the Unicode White_Space property. -/
def IsSpace (r : Char) : Bool :=
  r == '\t' || r == '\n' || r.val == 0x0B || r.val == 0x0C || r == '\r' || r == ' '
    || r.val == 0x85 || r.val == 0xA0 || r.val == 0x1680
    || (0x2000 ≤ r.val && r.val ≤ 0x200A)
    || r.val == 0x2028 || r.val == 0x2029 || r.val == 0x202F || r.val == 0x205F
    || r.val == 0x3000

end unicode

namespace strings

/-- `strings.TrimSpace`: the string without its leading and trailing white space. -/
def TrimSpace (s : String) : String :=
  String.mk ((s.data.dropWhile unicode.IsSpace).reverse.dropWhile unicode.IsSpace).reverse

end strings

namespace exec

/-- One run of a command built by `exec.Command` with `Stdout` and `Stderr` set to buffers:
the error of `cmd.Start` when the process could not be launched, and for a launched process
its exit status, the error `cmd.Wait` met copying the output (if any) and the contents of
the two buffers when `Wait` returns. -/
structure Cmd where
  startErr : Option String
  exitStatus : Nat
  copyErr : Option String
  stdout : String
  stderr : String
  deriving DecidableEq, Repr

/-- `(*Cmd).Start`. -/
def Cmd.Start (cmd : Cmd) : Option String :=
  cmd.startErr

/-- `(*Cmd).Wait` as the standard library documents it: the error is nil if the command runs,
has no problems copying stdin, stdout and stderr, and exits with a zero exit status; a
nonzero exit status is reported as an `*ExitError`, whose text is `exit status N`. -/
def Cmd.Wait (cmd : Cmd) : Option String :=
  if cmd.exitStatus ≠ 0 then some ("exit status " ++ toString cmd.exitStatus)
  else cmd.copyErr

end exec

namespace authentication

/-- What `obtainAuthorizationToken` calls outside the file: the run of the command
(`exec.Command` with its name and arguments) and `json.Unmarshal` into a `*cli.Token`, which
gives the pointer it leaves in `token` or its error. `T` is `cli.Token`. -/
structure TokenEnv (T : Type) where
  Command : String → List String → exec.Cmd
  Unmarshal : String → Except String (Option T)

/-- `obtainAuthorizationToken`. Line 136 of the source is not Go (a stray fragment of the
unfinished `azCmdJsonUnmarshal` refactoring) and has no counterpart here. -/
def obtainAuthorizationToken {T : Type} (env : TokenEnv T) (endpoint : String)
    (subscriptionId : String) : Except String (Option T) :=
  let cmd := env.Command "az"
    ["account", "get-access-token", "--resource", endpoint, "--subscription", subscriptionId,
      "-o=json"]
  match cmd.Start with
  | some err => .error ("Error launching Azure CLI: " ++ err)
  | none =>
    match cmd.Wait with
    | some err => .error ("Error waiting for the Azure CLI: " ++ err)
    | none =>
      let stdOutStr := cmd.stdout
      let stdErrStr := cmd.stderr
      if stdErrStr ≠ "" then
        .error ("Error retrieving access token from Azure CLI: " ++ strings.TrimSpace stdErrStr)
      else
        match env.Unmarshal stdOutStr with
        | .error err => .error ("Error unmarshaling Access Token from the Azure CLI: " ++ err)
        | .ok token => .ok token

end authentication

namespace http

/-- The part of `http.Response` the adapters look at: the status code. -/
structure Response where
  StatusCode : Nat
  deriving DecidableEq, Repr

/-- The constant `http.StatusNotFound`. -/
def StatusNotFound : Nat := 404

end http

namespace autorest

/-- The struct `autorest.Response`: it embeds a `*http.Response`. -/
structure Response where
  Response : Option http.Response
  deriving DecidableEq, Repr

end autorest

namespace utils

/-- Modelled from the spec: `utils.ResponseWasNotFound` (azurerm/utils, not among the sources)
tells whether the remote API reported the resource as not-found: the response is present and
its status code is `http.StatusNotFound`. -/
def ResponseWasNotFound (resp : autorest.Response) : Bool :=
  match resp.Response with
  | some r => r.StatusCode == http.StatusNotFound
  | none => false

end utils

namespace response

/-- Modelled from the spec: `response.WasNotFound` (go-azure-helpers/response, not among the
sources) tells whether the remote API reported the resource as not-found: the response is
present and its status code is `http.StatusNotFound`. -/
def WasNotFound (resp : Option http.Response) : Bool :=
  match resp with
  | some r => r.StatusCode == http.StatusNotFound
  | none => false

end response

/-- Dereference of a Go pointer. -/
def deref {α : Type} (p : Option α) : Except Panic α :=
  match p with
  | some a => .ok a
  | none => .error Panic.nilPointerDereference

/-- Index expression `m[key]` on a `map[string]string`: the zero value for a missing key. -/
def mapIndex (m : List (String × String)) (key : String) : String :=
  match m.find? (fun kv => kv.1 == key) with
  | some kv => kv.2
  | none => ""

namespace schema

/-- A value of the form state, for the field types of the two schemas (string and int);
`null` is an unset field. -/
inductive Value where
  | null
  | str (s : String)
  | int (n : Int)
  deriving DecidableEq, Repr

/-- What `d.Set` stores for a `*string` argument: a pointer to a primitive is replaced by the
value it points to, a nil pointer by nil. -/
def Value.ofStringPtr (p : Option String) : Value :=
  match p with
  | some s => Value.str s
  | none => Value.null

/-- The form state `schema.ResourceData`: the tracked identifier and the attributes by key. -/
structure ResourceData where
  id : String
  attributes : List (String × Value)
  deriving DecidableEq, Repr

/-- The method `d.Id()`. -/
def ResourceData.Id (d : ResourceData) : String :=
  d.id

/-- The method `d.SetId(v)`. -/
def ResourceData.SetId (d : ResourceData) (v : String) : ResourceData :=
  { d with id := v }

/-- The method `d.Set(key, value)`: the attribute `key` now holds `value`. The `error` it
returns is dropped at every call site of the two files. -/
def ResourceData.Set (d : ResourceData) (key : String) (value : Value) : ResourceData :=
  { d with attributes := (key, value) :: d.attributes.filter (fun kv => kv.1 != key) }

/-- The expression `d.Get(key).(string)` for a key of schema type string: the string stored,
the zero value when the field is unset. -/
def ResourceData.GetString (d : ResourceData) (key : String) : String :=
  match d.attributes.find? (fun kv => kv.1 == key) with
  | some (_, Value.str s) => s
  | _ => ""

end schema

namespace azure

/-- The struct `azure.ResourceID` (azurerm/helpers/azure), with the fields the file reads. -/
structure ResourceID where
  ResourceGroup : String
  Path : List (String × String)
  deriving DecidableEq, Repr

/-- The struct `azure.KeyVaultChildID` (azurerm/helpers/azure), with the fields the file
reads. -/
structure KeyVaultChildID where
  Name : String
  Version : String
  deriving DecidableEq, Repr

/-- The result of the SDK's `client.Delete`: the future's latest response (`future.Response()`)
and `pt`, standing for the rest of its polling state. -/
structure Future where
  Response : Option http.Response
  pt : Nat
  deriving DecidableEq, Repr

end azure

namespace appplatform

/-- The struct `appplatform.ClusterResourceProperties` of the SDK, with the fields the file
reads; both are pointers. -/
structure ClusterResourceProperties where
  ServiceID : Option String
  Version : Option Int
  deriving DecidableEq, Repr

/-- The struct `appplatform.ServiceResource` of the SDK, with the fields the file reads. -/
structure ServiceResource where
  Response : autorest.Response
  Properties : Option ClusterResourceProperties
  ID : Option String
  Name : Option String
  Location : Option String
  Tags : List (String × Option String)
  deriving DecidableEq, Repr

end appplatform

namespace azurerm

open schema

/-- What resource_arm_spring_cloud.go calls outside the file from Read and Delete:
`azure.ParseAzureResourceID`, `azure.NormalizeLocation` and `tags.FlattenAndSet` of the
repository (not among the sources), the three SDK calls on the services client and its
future (`WaitForCompletionRef` has a pointer receiver: it returns the future as it leaves
it), and `Quote`, the rendering of the verb `%q` by `fmt`. -/
structure SpringCloudEnv where
  ParseAzureResourceID : String → Except String azure.ResourceID
  NormalizeLocation : String → String
  FlattenAndSet : ResourceData → List (String × Option String) → ResourceData × Option String
  Get : String → String → appplatform.ServiceResource × Option String
  Delete : String → String → azure.Future × Option String
  WaitForCompletionRef : azure.Future → azure.Future × Option String
  Quote : String → String

/-- The function `resourceArmSpringCloudRead`: the form state as the call leaves it and the
`error` returned, or the panic reached. The log line has no counterpart. -/
def resourceArmSpringCloudRead (env : SpringCloudEnv) (d : ResourceData) :
    Except Panic (ResourceData × Option String) :=
  match env.ParseAzureResourceID d.Id with
  | .error err => pure (d, some err)
  | .ok id =>
    let resourceGroup := id.ResourceGroup
    let name := mapIndex id.Path "Spring"
    match env.Get resourceGroup name with
    | (resp, some err) =>
      if utils.ResponseWasNotFound resp.Response then
        let d := d.SetId ""
        pure (d, none)
      else
        pure (d, some ("Error reading Spring Cloud " ++ env.Quote name ++ " (Resource Group "
          ++ env.Quote resourceGroup ++ "): " ++ err))
    | (resp, none) => do
      let d := d.Set "name" (Value.ofStringPtr resp.Name)
      let d := d.Set "resource_group_name" (Value.str resourceGroup)
      let d :=
        match resp.Location with
        | some location => d.Set "location" (Value.str (env.NormalizeLocation location))
        | none => d
      let d ←
        match resp.Properties with
        | some clusterResourceProperties => do
          let d := d.Set "service_id" (Value.ofStringPtr clusterResourceProperties.ServiceID)
          let version ← deref clusterResourceProperties.Version
          pure (d.Set "version" (Value.int version))
        | none => pure d
      pure (env.FlattenAndSet d resp.Tags)

/-- The function `resourceArmSpringCloudDelete`: the `error` returned (the form state is not
written). -/
def resourceArmSpringCloudDelete (env : SpringCloudEnv) (d : ResourceData) : Option String :=
  match env.ParseAzureResourceID d.Id with
  | .error err => some err
  | .ok id =>
    let resourceGroup := id.ResourceGroup
    let name := mapIndex id.Path "Spring"
    match env.Delete resourceGroup name with
    | (future, some err) =>
      if response.WasNotFound future.Response then
        none
      else
        some ("Error deleting Spring Cloud " ++ env.Quote name ++ " (Resource Group "
          ++ env.Quote resourceGroup ++ "): " ++ err)
    | (future, none) =>
      match env.WaitForCompletionRef future with
      | (future, some err) =>
        if !response.WasNotFound future.Response then
          some ("Error waiting for deleting Spring Cloud " ++ env.Quote name
            ++ " (Resource Group " ++ env.Quote resourceGroup ++ "): " ++ err)
        else
          none
      | (_, none) => none

end azurerm

namespace keyvault

open schema

/-- The struct `keyvault.SecretBundle` of the SDK, with the fields the file reads. -/
structure SecretBundle where
  Response : autorest.Response
  Value : Option String
  ID : Option String
  ContentType : Option String
  Tags : List (String × Option String)
  deriving DecidableEq, Repr

/-- What key_vault_secret_data_source.go calls outside the file from Read:
`parse.KeyVaultID` (its pointer result; the error is discarded by the caller) and the
method `BaseUrl` of its result, `azure.ParseKeyVaultChildID` and `tags.FlattenAndSet` of the
repository (not among the sources), the SDK call `GetSecret`, and `Quote`, the rendering of
the verb `%q` by `fmt`. `K` is the struct `parse.KeyVaultId`. -/
structure SecretEnv (K : Type) where
  KeyVaultID : String → Option K
  BaseUrl : Option K → Except Panic String
  GetSecret : String → String → String → SecretBundle × Option String
  ParseKeyVaultChildID : String → Except String azure.KeyVaultChildID
  FlattenAndSet : ResourceData → List (String × Option String) → ResourceData × Option String
  Quote : String → String

/-- The function `dataSourceArmKeyVaultSecretRead`: the form state as the call leaves it and
the `error` returned, or the panic reached. -/
def dataSourceArmKeyVaultSecretRead {K : Type} (env : SecretEnv K) (d : ResourceData) :
    Except Panic (ResourceData × Option String) := do
  let name := d.GetString "name"
  let keyVaultId := d.GetString "key_vault_id"
  let kvID := env.KeyVaultID keyVaultId
  let baseUrl ← env.BaseUrl kvID
  match env.GetSecret baseUrl name "" with
  | (resp, some err) =>
    if utils.ResponseWasNotFound resp.Response then do
      let baseUrl ← env.BaseUrl kvID
      pure (d, some ("KeyVault Secret " ++ env.Quote name ++ " (KeyVault URI "
        ++ env.Quote baseUrl ++ ") does not exist"))
    else
      pure (d, some ("Error making Read request on Azure KeyVault Secret " ++ name ++ ": "
        ++ err))
  | (resp, none) => do
    let id ← deref resp.ID
    match env.ParseKeyVaultChildID id with
    | .error err => pure (d, some err)
    | .ok respID => do
      let id ← deref resp.ID
      let d := d.SetId id
      let d := d.Set "name" (Value.str respID.Name)
      let d := d.Set "key_vault_id" (Value.str keyVaultId)
      let d := d.Set "value" (Value.ofStringPtr resp.Value)
      let d := d.Set "version" (Value.str respID.Version)
      let d := d.Set "content_type" (Value.ofStringPtr resp.ContentType)
      pure (env.FlattenAndSet d resp.Tags)

end keyvault

/-! ## Definitions used to state the theorems -/

namespace authentication

/-- The messages the spec expects of `validate`: one for each of client ID, subscription ID
and tenant ID that is the empty string, in that order. -/
def missingFieldMessages {P : Type} (p : azureCLIProfile P) : List String :=
  (if p.clientId = "" then [errorMessageFmt "Client ID"] else [])
    ++ (if p.subscriptionId = "" then [errorMessageFmt "Subscription ID"] else [])
    ++ (if p.tenantId = "" then [errorMessageFmt "Tenant ID"] else [])

/-- The profile `build` holds once the CLI profile is loaded: the builder's identity fields
and the loaded `cli.Profile`. -/
def loadedProfile {P : Type} (b : Builder) (profile : P) : azureCLIProfile P :=
  { profile := profile
    clientId := b.ClientID
    environment := b.Environment
    subscriptionId := b.SubscriptionID
    tenantId := b.TenantID }

/-- A builder with nothing but the CLI-token flag and a docs link. -/
def exampleBuilder : Builder :=
  { ClientID := ""
    SubscriptionID := ""
    TenantID := ""
    Environment := "public"
    SupportsAzureCliToken := true
    ClientCertPath := ""
    ClientSecret := ""
    ClientSecretDocsLink := "https://example.org/docs" }

/-- An Azure CLI logged in as a user: every step of `build` succeeds. The loaded profile is
the number 7. -/
def cliLoggedInAsUser : AzureCLI Nat :=
  { ProfilePath := .ok "azureProfile.json"
    LoadProfile := fun _ => .ok 7
    verifyAuthenticatedAsAUser := fun _ => true
    populateFields := fun p => ({ p with subscriptionId := "sub-1", tenantId := "tenant-1" }, none)
    populateClientId := fun p => ({ p with clientId := "client-1" }, none) }

/-- An Azure CLI logged in as a service principal. -/
def cliLoggedInAsServicePrincipal : AzureCLI Nat :=
  { cliLoggedInAsUser with verifyAuthenticatedAsAUser := fun _ => false }

end authentication

namespace authentication

/-- The arguments `obtainAuthorizationToken` passes to `az`. -/
def getAccessTokenArgs (endpoint subscriptionId : String) : List String :=
  ["account", "get-access-token", "--resource", endpoint, "--subscription", subscriptionId,
    "-o=json"]

/-- A run of `az` that exits with status zero and prints a token, but also writes a warning
to standard error; tokens are represented by their access-token text, and every standard
output unmarshals. -/
def tokenEnvWithWarning : TokenEnv String :=
  { Command := fun _ _ =>
      { startErr := none, exitStatus := 0, copyErr := none,
        stdout := "tok", stderr := " WARNING: upgrade available\n" }
    Unmarshal := fun out => .ok (some out) }

/-- A builder with the CLI-token flag set that also supplies a client secret. -/
def builderWithClientSecret : Builder :=
  { exampleBuilder with ClientSecret := "s3cret" }

end authentication

namespace azurerm

open schema

/-- A rendering of `%q` for the strings of the examples, which need no escaping. -/
def quoteExample (s : String) : String :=
  "\"" ++ s ++ "\""

/-- A tracked Spring Cloud resource. -/
def trackedSpringCloud : ResourceData :=
  { id := "/subscriptions/0000/resourceGroups/rg1/providers/Microsoft.AppPlatform/Spring/sc1"
    attributes := [("name", Value.str "sc1"), ("resource_group_name", Value.str "rg1")] }

/-- A `ServiceResource` that carries only a response with the given status. -/
def serviceResourceWithStatus (status : Nat) : appplatform.ServiceResource :=
  { Response := { Response := some { StatusCode := status } }
    Properties := none
    ID := none
    Name := none
    Location := none
    Tags := [] }

/-- A remote API on which the Spring Cloud resource no longer exists: `Get` and `Delete`
fail with status 404. -/
def springCloudGone : SpringCloudEnv :=
  { ParseAzureResourceID := fun _ => .ok { ResourceGroup := "rg1", Path := [("Spring", "sc1")] }
    NormalizeLocation := fun l => l
    FlattenAndSet := fun d _ => (d, none)
    Get := fun _ _ => (serviceResourceWithStatus 404, some "ResourceNotFound")
    Delete := fun _ _ => ({ Response := some { StatusCode := 404 }, pt := 0 },
      some "ResourceNotFound")
    WaitForCompletionRef := fun f => (f, none)
    Quote := quoteExample }

/-- A remote API on which the Spring Cloud resource disappears while the delete operation is
awaited: `Delete` is accepted, the wait fails with status 404. -/
def springCloudGoneWhileWaiting : SpringCloudEnv :=
  { springCloudGone with
    Delete := fun _ _ => ({ Response := some { StatusCode := 202 }, pt := 0 }, none)
    WaitForCompletionRef := fun f =>
      ({ f with Response := some { StatusCode := 404 } }, some "ResourceNotFound") }

/-- A remote API whose `Get` succeeds with `Properties` present, `ServiceID` present and
`Version` absent. -/
def springCloudWithoutVersion : SpringCloudEnv :=
  { springCloudGone with
    Get := fun _ _ =>
      ({ Response := { Response := some { StatusCode := 200 } }
         Properties := some { ServiceID := some "svc-1", Version := none }
         ID := some trackedSpringCloud.id
         Name := some "sc1"
         Location := some "westeurope"
         Tags := [] }, none) }

end azurerm

namespace keyvault

open schema

/-- The form state of a key vault secret data source before its first read. -/
def secretQuery : ResourceData :=
  { id := ""
    attributes := [("name", Value.str "db-password"), ("key_vault_id", Value.str "kv-1")] }

/-- A key vault in which the secret does not exist: `GetSecret` fails with status 404. A
parsed key vault id is represented by its base URL. -/
def secretMissing : SecretEnv String :=
  { KeyVaultID := fun _ => some "https://kv-1.vault.azure.net/"
    BaseUrl := fun k => deref k
    GetSecret := fun _ _ _ =>
      ({ Response := { Response := some { StatusCode := 404 } }
         Value := none, ID := none, ContentType := none, Tags := [] }, some "SecretNotFound")
    ParseKeyVaultChildID := fun _ => .error "unparsable"
    FlattenAndSet := fun d _ => (d, none)
    Quote := azurerm.quoteExample }

end keyvault

/-! ## Theorems: the Azure CLI token strategy -/

namespace authentication

/-- C1: for a CLI-token strategy whose profile is non-nil, `validate` reports exactly one
missing-field message for each of clientId, subscriptionId, tenantId that is the empty string,
in the order Client ID, Subscription ID, Tenant ID, and no other message; with all three empty
the report holds exactly three pairwise distinct messages; and `validate` returns no error if
and only if all three fields are non-empty. -/
theorem validate_reports_every_missing_field {P : Type} (a : azureCliTokenAuth P)
    (p : azureCLIProfile P) (h : a.profile = some p) :
    validate a
        = (if missingFieldMessages p = [] then none
            else some (GoError.multi { Errors := missingFieldMessages p }))
      ∧ (p.clientId = "" → p.subscriptionId = "" → p.tenantId = "" →
          validate a = some (GoError.multi { Errors :=
              [errorMessageFmt "Client ID", errorMessageFmt "Subscription ID",
                errorMessageFmt "Tenant ID"] })
            ∧ [errorMessageFmt "Client ID", errorMessageFmt "Subscription ID",
                errorMessageFmt "Tenant ID"].Nodup)
      ∧ (validate a = none ↔ p.clientId ≠ "" ∧ p.subscriptionId ≠ "" ∧ p.tenantId ≠ "") := by
  have hv : validate a
      = (if missingFieldMessages p = [] then none
          else some (GoError.multi { Errors := missingFieldMessages p })) := by
    unfold validate missingFieldMessages
    rw [h]
    by_cases h1 : p.clientId = "" <;> by_cases h2 : p.subscriptionId = ""
      <;> by_cases h3 : p.tenantId = ""
      <;> simp [h1, h2, h3, multierror.Append, multierror.ErrorOrNil]
  refine ⟨hv, ?_, ?_⟩
  · intro h1 h2 h3
    refine ⟨?_, by decide⟩
    rw [hv]
    simp [missingFieldMessages, h1, h2, h3]
  · rw [hv]
    by_cases h1 : p.clientId = "" <;> by_cases h2 : p.subscriptionId = ""
      <;> by_cases h3 : p.tenantId = ""
      <;> simp [missingFieldMessages, h1, h2, h3]

/-- C1 at a profile whose three identity fields are all empty. -/
theorem validate_reports_every_missing_field_witness :
    validate (⟨some ⟨(), "", "public", "", ""⟩, "docs"⟩ : azureCliTokenAuth Unit)
        = some (GoError.multi { Errors :=
            [errorMessageFmt "Client ID", errorMessageFmt "Subscription ID",
              errorMessageFmt "Tenant ID"] })
      ∧ [errorMessageFmt "Client ID", errorMessageFmt "Subscription ID",
            errorMessageFmt "Tenant ID"].Nodup :=
  (validate_reports_every_missing_field
      (⟨some ⟨(), "", "public", "", ""⟩, "docs"⟩ : azureCliTokenAuth Unit)
      ⟨(), "", "public", "", ""⟩ rfl).2.1 rfl rfl rfl

end authentication

namespace authentication

theorem servicePrincipalLoginError_text (link : String) :
    ∃ before after, servicePrincipalLoginError link
      = before ++ "only supported as a User (not a Service Principal)" ++ after := by
  refine ⟨"Authenticating using the Azure CLI is ",
    ".\n\nTo authenticate to Azure using a Service Principal, you can use the separate 'Authenticate using a Service Principal'\nauth method - instructions for which can be found here: "
      ++ link
      ++ "\n\nAlternatively you can authenticate using the Azure CLI by using a User Account.", ?_⟩
  unfold servicePrincipalLoginError
  simp only [← String.append_assoc]
  rfl

/-- C2: whenever the CLI profile path resolves and the profile loads but
`verifyAuthenticatedAsAUser` reports a service-principal login, `build` returns no auth method
and fails with the "only supported as a User (not a Service Principal)" error, whatever the
builder's client ID, subscription ID, tenant ID and environment, and without running
`populateFields` or `populateClientId`. -/
theorem build_refuses_service_principal {P : Type} [Inhabited P] (cli : AzureCLI P)
    (a : azureCliTokenAuth P) (b : Builder) (path : String) (profile : P)
    (hpath : cli.ProfilePath = .ok path) (hload : cli.LoadProfile path = .ok profile)
    (hsp : cli.verifyAuthenticatedAsAUser (loadedProfile b profile) = false) :
    build cli a b
        = ([Call.ProfilePath, Call.LoadProfile path, Call.verifyAuthenticatedAsAUser],
            .error (servicePrincipalLoginError b.ClientSecretDocsLink))
      ∧ Call.populateFields ∉ (build cli a b).1
      ∧ Call.populateClientId ∉ (build cli a b).1
      ∧ ∃ before after, servicePrincipalLoginError b.ClientSecretDocsLink
          = before ++ "only supported as a User (not a Service Principal)" ++ after := by
  have hb : build cli a b
      = ([Call.ProfilePath, Call.LoadProfile path, Call.verifyAuthenticatedAsAUser],
          .error (servicePrincipalLoginError b.ClientSecretDocsLink)) := by
    unfold loadedProfile at hsp
    unfold build
    simp [hpath, hload, hsp]
  refine ⟨hb, ?_, ?_, servicePrincipalLoginError_text _⟩
  · rw [hb]; simp
  · rw [hb]; simp

/-- C2 at a CLI logged in as a service principal. -/
theorem build_refuses_service_principal_witness :
    build cliLoggedInAsServicePrincipal ⟨none, ""⟩ exampleBuilder
      = ([Call.ProfilePath, Call.LoadProfile "azureProfile.json",
            Call.verifyAuthenticatedAsAUser],
          .error (servicePrincipalLoginError "https://example.org/docs")) :=
  (build_refuses_service_principal cliLoggedInAsServicePrincipal ⟨none, ""⟩ exampleBuilder
    "azureProfile.json" 7 rfl rfl rfl).1

end authentication

namespace authentication

/-- C9: with the five external steps of `build` as outcomes (profile path, profile load,
user-principal check, `populateFields`, `populateClientId`), `build` returns an auth method if
and only if all five succeed; otherwise it fails with the error of the first failing step in
that order and runs no later step; the `populateFields` and `populateClientId` errors embed
the text of the underlying cause; on success the strategy returned holds the profile as the
two populate steps left it, which carries the loaded CLI profile when those steps keep it,
and the builder's `ClientSecretDocsLink`. -/
theorem build_fails_at_first_failing_step {P : Type} [Inhabited P] (cli : AzureCLI P)
    (a : azureCliTokenAuth P) (b : Builder) :
    (∀ e, cli.ProfilePath = .error e →
        build cli a b = ([Call.ProfilePath],
          .error ("Error loading the Profile Path from the Azure CLI: " ++ e)))
      ∧ (∀ path e, cli.ProfilePath = .ok path → cli.LoadProfile path = .error e →
        build cli a b = ([Call.ProfilePath, Call.LoadProfile path],
          .error "Azure CLI Authorization Profile was not found. Please ensure the Azure CLI is installed and then log-in with `az login`."))
      ∧ (∀ path profile, cli.ProfilePath = .ok path → cli.LoadProfile path = .ok profile →
        cli.verifyAuthenticatedAsAUser (loadedProfile b profile) = false →
        build cli a b
          = ([Call.ProfilePath, Call.LoadProfile path, Call.verifyAuthenticatedAsAUser],
            .error (servicePrincipalLoginError b.ClientSecretDocsLink)))
      ∧ (∀ path profile p1 e, cli.ProfilePath = .ok path → cli.LoadProfile path = .ok profile →
        cli.verifyAuthenticatedAsAUser (loadedProfile b profile) = true →
        cli.populateFields (loadedProfile b profile) = (p1, some e) →
        build cli a b
          = ([Call.ProfilePath, Call.LoadProfile path, Call.verifyAuthenticatedAsAUser,
              Call.populateFields],
            .error ("Error retrieving the Profile from the Azure CLI: " ++ e
              ++ " Please re-authenticate using `az login`.")))
      ∧ (∀ path profile p1 p2 e, cli.ProfilePath = .ok path →
        cli.LoadProfile path = .ok profile →
        cli.verifyAuthenticatedAsAUser (loadedProfile b profile) = true →
        cli.populateFields (loadedProfile b profile) = (p1, none) →
        cli.populateClientId p1 = (p2, some e) →
        build cli a b
          = ([Call.ProfilePath, Call.LoadProfile path, Call.verifyAuthenticatedAsAUser,
              Call.populateFields, Call.populateClientId],
            .error ("Error populating Client ID from the Azure CLI: " ++ e)))
      ∧ (∀ path profile p1 p2, cli.ProfilePath = .ok path →
        cli.LoadProfile path = .ok profile →
        cli.verifyAuthenticatedAsAUser (loadedProfile b profile) = true →
        cli.populateFields (loadedProfile b profile) = (p1, none) →
        cli.populateClientId p1 = (p2, none) →
        build cli a b
            = ([Call.ProfilePath, Call.LoadProfile path, Call.verifyAuthenticatedAsAUser,
                Call.populateFields, Call.populateClientId],
              .ok { profile := some p2, servicePrincipalAuthDocsLink := b.ClientSecretDocsLink })
          ∧ ((∀ q, (cli.populateFields q).1.profile = q.profile) →
              (∀ q, (cli.populateClientId q).1.profile = q.profile) → p2.profile = profile))
      ∧ ((∃ auth, (build cli a b).2 = .ok auth) ↔
          ∃ path profile p1 p2, cli.ProfilePath = .ok path ∧ cli.LoadProfile path = .ok profile
            ∧ cli.verifyAuthenticatedAsAUser (loadedProfile b profile) = true
            ∧ cli.populateFields (loadedProfile b profile) = (p1, none)
            ∧ cli.populateClientId p1 = (p2, none)) := by
  refine ⟨?_, ?_, ?_, ?_, ?_, ?_, ?_⟩
  · intro e h1
    unfold build
    simp [h1]
  · intro path e h1 h2
    unfold build
    simp [h1, h2]
  · intro path profile h1 h2 h3
    unfold loadedProfile at h3
    unfold build
    simp [h1, h2, h3]
  · intro path profile p1 e h1 h2 h3 h4
    unfold loadedProfile at h3 h4
    unfold build
    simp [h1, h2, h3, h4]
  · intro path profile p1 p2 e h1 h2 h3 h4 h5
    unfold loadedProfile at h3 h4
    unfold build
    simp [h1, h2, h3, h4, h5]
  · intro path profile p1 p2 h1 h2 h3 h4 h5
    refine ⟨?_, ?_⟩
    · unfold loadedProfile at h3 h4
      unfold build
      simp [h1, h2, h3, h4, h5]
    · intro hf hc
      have e1 := hf (loadedProfile b profile)
      have e2 := hc p1
      rw [h4] at e1
      rw [h5] at e2
      simp only at e1 e2
      rw [e2, e1]
      rfl
  · constructor
    · rintro ⟨auth, hok⟩
      unfold build at hok
      cases h1 : cli.ProfilePath with
      | error e => simp [h1] at hok
      | ok path =>
        cases h2 : cli.LoadProfile path with
        | error e => simp [h1, h2] at hok
        | ok profile =>
          cases h3 : cli.verifyAuthenticatedAsAUser (loadedProfile b profile) with
          | false =>
            unfold loadedProfile at h3
            simp [h1, h2, h3] at hok
          | true =>
            rcases h4 : cli.populateFields (loadedProfile b profile) with ⟨p1, _ | e⟩
            · rcases h5 : cli.populateClientId p1 with ⟨p2, _ | e⟩
              · exact ⟨path, profile, p1, p2, rfl, h2, h3, h4, h5⟩
              · unfold loadedProfile at h3 h4
                simp [h1, h2, h3, h4, h5] at hok
            · unfold loadedProfile at h3 h4
              simp [h1, h2, h3, h4] at hok
    · rintro ⟨path, profile, p1, p2, h1, h2, h3, h4, h5⟩
      unfold loadedProfile at h3 h4
      unfold build
      simp [h1, h2, h3, h4, h5]

/-- C9 at a CLI logged in as a user: all five steps run and the strategy returned carries the
populated profile, the loaded CLI profile within it, and the builder's docs link. -/
theorem build_fails_at_first_failing_step_witness :
    build cliLoggedInAsUser ⟨none, ""⟩ exampleBuilder
        = ([Call.ProfilePath, Call.LoadProfile "azureProfile.json",
              Call.verifyAuthenticatedAsAUser, Call.populateFields, Call.populateClientId],
            .ok { profile := some
                    { profile := 7, clientId := "client-1", environment := "public",
                      subscriptionId := "sub-1", tenantId := "tenant-1" }
                  servicePrincipalAuthDocsLink := "https://example.org/docs" }) :=
  ((build_fails_at_first_failing_step cliLoggedInAsUser ⟨none, ""⟩
      exampleBuilder).2.2.2.2.2.1 "azureProfile.json" 7 _ _ rfl rfl rfl rfl rfl).1

end authentication

namespace authentication

/-- C3: with the subprocess result as (launch and wait outcome, stdout, stderr),
`obtainAuthorizationToken` fails whenever the subprocess exits nonzero or its standard error
is non-empty; in particular it fails, with the trimmed standard error in the message, for
every run whose standard error is non-empty even when the process launched, exited zero and
standard output parses as a token; and it returns a token exactly when the process launched,
exited zero without a copy error, standard error is empty and standard output parses, the
token returned being the parse of standard output. -/
theorem obtainAuthorizationToken_fails_on_stderr {T : Type} (env : TokenEnv T)
    (endpoint subscriptionId : String) :
    ((env.Command "az" (getAccessTokenArgs endpoint subscriptionId)).exitStatus ≠ 0
          ∨ (env.Command "az" (getAccessTokenArgs endpoint subscriptionId)).stderr ≠ "" →
        ∃ msg, obtainAuthorizationToken env endpoint subscriptionId = .error msg)
      ∧ ((env.Command "az" (getAccessTokenArgs endpoint subscriptionId)).startErr = none →
          (env.Command "az" (getAccessTokenArgs endpoint subscriptionId)).exitStatus = 0 →
          (env.Command "az" (getAccessTokenArgs endpoint subscriptionId)).copyErr = none →
          (env.Command "az" (getAccessTokenArgs endpoint subscriptionId)).stderr ≠ "" →
          obtainAuthorizationToken env endpoint subscriptionId
            = .error ("Error retrieving access token from Azure CLI: "
                ++ strings.TrimSpace
                    (env.Command "az" (getAccessTokenArgs endpoint subscriptionId)).stderr))
      ∧ (∀ token, obtainAuthorizationToken env endpoint subscriptionId = .ok token ↔
          (env.Command "az" (getAccessTokenArgs endpoint subscriptionId)).startErr = none
            ∧ (env.Command "az" (getAccessTokenArgs endpoint subscriptionId)).exitStatus = 0
            ∧ (env.Command "az" (getAccessTokenArgs endpoint subscriptionId)).copyErr = none
            ∧ (env.Command "az" (getAccessTokenArgs endpoint subscriptionId)).stderr = ""
            ∧ env.Unmarshal
                (env.Command "az" (getAccessTokenArgs endpoint subscriptionId)).stdout
              = .ok token) := by
  unfold obtainAuthorizationToken getAccessTokenArgs exec.Cmd.Start exec.Cmd.Wait
  generalize env.Command "az" ["account", "get-access-token", "--resource", endpoint,
    "--subscription", subscriptionId, "-o=json"] = cmd
  rcases cmd with ⟨startErr, exitStatus, copyErr, stdout, stderr⟩
  refine ⟨?_, ?_, ?_⟩
  · intro h
    cases startErr with
    | some e => exact ⟨_, rfl⟩
    | none =>
      by_cases hx : exitStatus = 0
      · cases copyErr with
        | some e => simp [hx]
        | none =>
          have hs : stderr ≠ "" := by
            rcases h with h | h
            · exact absurd hx h
            · exact h
          simp [hx, hs]
      · simp [hx]
  · intro h1 h2 h3 h4
    simp only at h1 h2 h3 h4
    simp [h1, h2, h3, h4]
  · intro token
    cases startErr with
    | some e => simp
    | none =>
      by_cases hx : exitStatus = 0
      · cases copyErr with
        | some e => simp [hx]
        | none =>
          by_cases hs : stderr = ""
          · cases hu : env.Unmarshal stdout with
            | error e => simp [hx, hs, hu]
            | ok t => simp [hx, hs, hu]
          · simp [hx, hs]
      · simp [hx]

/-- C3 at a run that exits zero and prints a parsable token but also writes to standard
error: the call fails. -/
theorem obtainAuthorizationToken_fails_on_stderr_witness :
    obtainAuthorizationToken tokenEnvWithWarning "https://management.azure.com/" "sub-1"
      = .error "Error retrieving access token from Azure CLI: WARNING: upgrade available" :=
  ((obtainAuthorizationToken_fails_on_stderr tokenEnvWithWarning
    "https://management.azure.com/" "sub-1").2.1 rfl rfl rfl (by decide)).trans
    (congrArg Except.error (by decide))

/-- C6: for a CLI-token strategy with a non-nil profile and every configuration `c`,
`populateConfig` returns no error and leaves `c` with `ClientID`, `Environment`,
`SubscriptionID` and `TenantID` equal to the profile's `clientId`, `environment`,
`subscriptionId` and `tenantId`, the object ID field and every other field unchanged. -/
theorem populateConfig_copies_identity_only {P R : Type} (a : azureCliTokenAuth P)
    (p : azureCLIProfile P) (c : Config R) (h : a.profile = some p) :
    ∃ c2, populateConfig a c = .ok (c2, none)
      ∧ c2.ClientID = p.clientId ∧ c2.Environment = p.environment
      ∧ c2.SubscriptionID = p.subscriptionId ∧ c2.TenantID = p.tenantId
      ∧ c2.ObjectID = c.ObjectID ∧ c2.rest = c.rest := by
  unfold populateConfig
  rw [h]
  exact ⟨_, rfl, rfl, rfl, rfl, rfl, rfl, rfl⟩

/-- C6 at a populated profile and a configuration that already has an object ID. -/
theorem populateConfig_copies_identity_only_witness :
    ∃ c2, populateConfig
          (⟨some ⟨(), "client-1", "public", "sub-1", "tenant-1"⟩, "docs"⟩ : azureCliTokenAuth Unit)
          (⟨"", "", "", "", "object-1", (5 : Nat)⟩ : Config Nat) = .ok (c2, none)
      ∧ c2.ClientID = "client-1" ∧ c2.Environment = "public"
      ∧ c2.SubscriptionID = "sub-1" ∧ c2.TenantID = "tenant-1"
      ∧ c2.ObjectID = "object-1" ∧ c2.rest = 5 :=
  populateConfig_copies_identity_only
    (⟨some ⟨(), "client-1", "public", "sub-1", "tenant-1"⟩, "docs"⟩ : azureCliTokenAuth Unit)
    ⟨(), "client-1", "public", "sub-1", "tenant-1"⟩
    (⟨"", "", "", "", "object-1", (5 : Nat)⟩ : Config Nat) rfl

/-- C7, as the spec states it, fails: for a builder with the CLI-token flag set and a client
secret supplied, `isApplicable` holds although conflicting explicit credentials are
supplied. -/
theorem isApplicable_ignores_credentials_counterexample :
    isApplicable (⟨none, ""⟩ : azureCliTokenAuth Unit) builderWithClientSecret = true
      ∧ isApplicable_spec builderWithClientSecret = false
      ∧ ¬ (isApplicable (⟨none, ""⟩ : azureCliTokenAuth Unit) builderWithClientSecret = true
            ↔ isApplicable_spec builderWithClientSecret = true) := by
  decide

/-- C7, amended: `isApplicable` is a pure predicate of the builder that holds if and only if
the builder's supports-CLI-token flag is set; it depends neither on the receiver nor on the
client secret or client certificate supplied in the builder. -/
theorem isApplicable_iff_flag {P : Type} (a a2 : azureCliTokenAuth P) (b : Builder)
    (secret certPath : String) :
    (isApplicable a b = true ↔ b.SupportsAzureCliToken = true)
      ∧ isApplicable a2 b = isApplicable a b
      ∧ isApplicable a { b with ClientSecret := secret, ClientCertPath := certPath }
          = isApplicable a b := by
  exact ⟨Iff.rfl, rfl, rfl⟩

end authentication

/-! ## Theorems: the resource adapters -/

namespace azurerm

open schema

/-- C4: for a tracked Spring Cloud resource whose identifier parses, if the remote `Get` fails
with a not-found response then `resourceArmSpringCloudRead` returns no error and sets the
tracked identifier to the empty string, every attribute of the form state unchanged; if `Get`
fails with any other response, it returns an error and leaves the form state, the identifier
included, unchanged. -/
theorem resourceArmSpringCloudRead_not_found_clears_id (env : SpringCloudEnv)
    (d : ResourceData) (id : azure.ResourceID) (resp : appplatform.ServiceResource)
    (err : String) (hparse : env.ParseAzureResourceID d.Id = .ok id)
    (hget : env.Get id.ResourceGroup (mapIndex id.Path "Spring") = (resp, some err)) :
    (utils.ResponseWasNotFound resp.Response = true →
        resourceArmSpringCloudRead env d = .ok ({ id := "", attributes := d.attributes }, none))
      ∧ (utils.ResponseWasNotFound resp.Response = false →
        ∃ msg, resourceArmSpringCloudRead env d = .ok (d, some msg)) := by
  constructor
  · intro hnf
    unfold resourceArmSpringCloudRead
    simp [hparse, hget, hnf, ResourceData.SetId, pure, Except.pure]
  · intro hnf
    unfold resourceArmSpringCloudRead
    simp [hparse, hget, hnf, pure, Except.pure]

/-- C4 at a resource the remote API reports as not-found. -/
theorem resourceArmSpringCloudRead_not_found_clears_id_witness :
    resourceArmSpringCloudRead springCloudGone trackedSpringCloud
      = .ok ({ id := "", attributes := trackedSpringCloud.attributes }, none) :=
  (resourceArmSpringCloudRead_not_found_clears_id springCloudGone trackedSpringCloud
    { ResourceGroup := "rg1", Path := [("Spring", "sc1")] } (serviceResourceWithStatus 404)
    "ResourceNotFound" rfl rfl).1 (by decide)

/-- C5: delete of an already-absent Spring Cloud resource is idempotent: for an identifier
that parses, if the remote `Delete` call fails with a not-found response, or the wait for the
delete operation fails with a not-found response, `resourceArmSpringCloudDelete` returns no
error; it returns an error only when the identifier does not parse or a failure (of `Delete`
or of the wait) carries a response other than not-found. -/
theorem resourceArmSpringCloudDelete_idempotent (env : SpringCloudEnv) (d : ResourceData) :
    (∀ id future err, env.ParseAzureResourceID d.Id = .ok id →
        env.Delete id.ResourceGroup (mapIndex id.Path "Spring") = (future, some err) →
        response.WasNotFound future.Response = true →
        resourceArmSpringCloudDelete env d = none)
      ∧ (∀ id future future2 err, env.ParseAzureResourceID d.Id = .ok id →
        env.Delete id.ResourceGroup (mapIndex id.Path "Spring") = (future, none) →
        env.WaitForCompletionRef future = (future2, some err) →
        response.WasNotFound future2.Response = true →
        resourceArmSpringCloudDelete env d = none)
      ∧ ((∃ msg, resourceArmSpringCloudDelete env d = some msg) ↔
          (∃ err, env.ParseAzureResourceID d.Id = .error err)
            ∨ (∃ id future err, env.ParseAzureResourceID d.Id = .ok id
                ∧ env.Delete id.ResourceGroup (mapIndex id.Path "Spring") = (future, some err)
                ∧ response.WasNotFound future.Response = false)
            ∨ (∃ id future future2 err, env.ParseAzureResourceID d.Id = .ok id
                ∧ env.Delete id.ResourceGroup (mapIndex id.Path "Spring") = (future, none)
                ∧ env.WaitForCompletionRef future = (future2, some err)
                ∧ response.WasNotFound future2.Response = false)) := by
  refine ⟨?_, ?_, ?_⟩
  · intro id future err hparse hdel hnf
    unfold resourceArmSpringCloudDelete
    simp [hparse, hdel, hnf]
  · intro id future future2 err hparse hdel hwait hnf
    unfold resourceArmSpringCloudDelete
    simp [hparse, hdel, hwait, hnf]
  · unfold resourceArmSpringCloudDelete
    cases hparse : env.ParseAzureResourceID d.Id with
    | error e => simp
    | ok id =>
      rcases hdel : env.Delete id.ResourceGroup (mapIndex id.Path "Spring")
        with ⟨future, _ | err⟩
      · rcases hwait : env.WaitForCompletionRef future with ⟨future2, _ | err⟩
        · simp [hdel, hwait]
        · cases hnf : response.WasNotFound future2.Response <;> simp [hdel, hwait, hnf]
      · cases hnf : response.WasNotFound future.Response <;> simp [hdel, hnf]

/-- C5 at a resource that disappears while the delete operation is awaited. -/
theorem resourceArmSpringCloudDelete_idempotent_witness :
    resourceArmSpringCloudDelete springCloudGoneWhileWaiting trackedSpringCloud = none :=
  (resourceArmSpringCloudDelete_idempotent springCloudGoneWhileWaiting trackedSpringCloud).2.1
    { ResourceGroup := "rg1", Path := [("Spring", "sc1")] }
    { Response := some { StatusCode := 202 }, pt := 0 }
    { Response := some { StatusCode := 404 }, pt := 0 } "ResourceNotFound" rfl rfl rfl
    (by decide)

end azurerm

namespace azurerm

open schema

/-- The panic of `resourceArmSpringCloudRead`: a successful `Get` whose `Properties` is present
and whose `Version` is absent reaches the dereference of a nil pointer, whatever else the
response holds. -/
theorem resourceArmSpringCloudRead_panics_without_version (env : SpringCloudEnv)
    (d : ResourceData) (id : azure.ResourceID) (resp : appplatform.ServiceResource)
    (props : appplatform.ClusterResourceProperties)
    (hparse : env.ParseAzureResourceID d.Id = .ok id)
    (hget : env.Get id.ResourceGroup (mapIndex id.Path "Spring") = (resp, none))
    (hprops : resp.Properties = some props) (hversion : props.Version = none) :
    resourceArmSpringCloudRead env d = .error Panic.nilPointerDereference := by
  unfold resourceArmSpringCloudRead
  simp [hparse, hget, hprops, hversion, deref, bind, Except.bind]

/-- Apart from that case the function returns: with `Properties` absent, or `Version` present,
a successful `Get` leads to a result, whichever of `Name`, `Location` and `ServiceID` are
absent. -/
theorem resourceArmSpringCloudRead_returns_otherwise (env : SpringCloudEnv)
    (d : ResourceData) (id : azure.ResourceID) (resp : appplatform.ServiceResource)
    (hparse : env.ParseAzureResourceID d.Id = .ok id)
    (hget : env.Get id.ResourceGroup (mapIndex id.Path "Spring") = (resp, none))
    (hversion : ∀ props, resp.Properties = some props → props.Version ≠ none) :
    ∃ r, resourceArmSpringCloudRead env d = .ok r := by
  unfold resourceArmSpringCloudRead
  cases hprops : resp.Properties with
  | none => simp [hparse, hget, hprops, bind, Except.bind, pure, Except.pure]
  | some props =>
    cases hv : props.Version with
    | none => exact absurd hv (hversion props hprops)
    | some v => simp [hparse, hget, hprops, hv, deref, bind, Except.bind, pure, Except.pure]

/-- C10, on the code: for the successful `Get` response with `Properties` present,
`ServiceID` present and `Version` absent, `resourceArmSpringCloudRead` does not complete: it
dereferences the nil `Version`. -/
theorem resourceArmSpringCloudRead_nil_version_panics :
    (springCloudWithoutVersion.Get "rg1" "sc1").2 = none
      ∧ ((springCloudWithoutVersion.Get "rg1" "sc1").1.Properties.map (fun p => p.Version))
          = some none
      ∧ resourceArmSpringCloudRead springCloudWithoutVersion trackedSpringCloud
          = .error Panic.nilPointerDereference :=
  ⟨rfl, rfl, rfl⟩

end azurerm

namespace keyvault

open schema

theorem dataSourceArmKeyVaultSecretRead_secretMissing :
    dataSourceArmKeyVaultSecretRead secretMissing secretQuery
      = .ok (secretQuery, some "KeyVault Secret \"db-password\" (KeyVault URI \"https://kv-1.vault.azure.net/\") does not exist") := by
  have h : ("KeyVault Secret " ++ azurerm.quoteExample "db-password" ++ " (KeyVault URI "
        ++ azurerm.quoteExample "https://kv-1.vault.azure.net/" ++ ") does not exist")
      = "KeyVault Secret \"db-password\" (KeyVault URI \"https://kv-1.vault.azure.net/\") does not exist" := by
    decide
  rw [← h]
  rfl

/-- C8, as stated, fails: for a secret the key vault reports as not-found (status 404), the
read returns an error, not success. -/
theorem dataSourceArmKeyVaultSecretRead_not_found_counterexample :
    utils.ResponseWasNotFound
          (secretMissing.GetSecret "https://kv-1.vault.azure.net/" "db-password" "").1.Response
        = true
      ∧ dataSourceArmKeyVaultSecretRead secretMissing secretQuery
        = .ok (secretQuery, some "KeyVault Secret \"db-password\" (KeyVault URI \"https://kv-1.vault.azure.net/\") does not exist")
      ∧ ¬ ∃ d2, dataSourceArmKeyVaultSecretRead secretMissing secretQuery = .ok (d2, none) := by
  refine ⟨by decide, dataSourceArmKeyVaultSecretRead_secretMissing, ?_⟩
  rintro ⟨d2, h⟩
  rw [dataSourceArmKeyVaultSecretRead_secretMissing] at h
  simp at h

/-- C8, amended: for every name and key vault id (whose base URL can be taken), if the remote
`GetSecret` call fails with a not-found response then `dataSourceArmKeyVaultSecretRead`
returns the error "KeyVault Secret ... (KeyVault URI ...) does not exist" and leaves the form
state unchanged, so that a tracked identifier that was empty stays empty. -/
theorem dataSourceArmKeyVaultSecretRead_not_found_is_error {K : Type} (env : SecretEnv K)
    (d : ResourceData) (baseUrl : String) (resp : SecretBundle) (err : String)
    (hurl : env.BaseUrl (env.KeyVaultID (d.GetString "key_vault_id")) = .ok baseUrl)
    (hget : env.GetSecret baseUrl (d.GetString "name") "" = (resp, some err))
    (hnf : utils.ResponseWasNotFound resp.Response = true) :
    dataSourceArmKeyVaultSecretRead env d
      = .ok (d, some ("KeyVault Secret " ++ env.Quote (d.GetString "name")
          ++ " (KeyVault URI " ++ env.Quote baseUrl ++ ") does not exist")) := by
  unfold dataSourceArmKeyVaultSecretRead
  simp [hurl, hget, hnf, bind, Except.bind, pure, Except.pure]

/-- C8, amended, at a secret the key vault reports as not-found. -/
theorem dataSourceArmKeyVaultSecretRead_not_found_is_error_witness :
    dataSourceArmKeyVaultSecretRead secretMissing secretQuery
      = .ok (secretQuery, some ("KeyVault Secret " ++ azurerm.quoteExample "db-password"
          ++ " (KeyVault URI " ++ azurerm.quoteExample "https://kv-1.vault.azure.net/"
          ++ ") does not exist")) :=
  dataSourceArmKeyVaultSecretRead_not_found_is_error secretMissing secretQuery
    "https://kv-1.vault.azure.net/"
    { Response := { Response := some { StatusCode := 404 } }
      Value := none, ID := none, ContentType := none, Tags := [] } "SecretNotFound"
    rfl rfl (by decide)

end keyvault
